import Mathlib

/-!
Verification of the telemetry ingestion and synchronization engine of the
Raspi weather-station repository.

The Python sources are shallowly embedded:

* A wire report, after `urllib.parse.parse_qs` flattening, is a record of
  per-key values.  A numeric parameter is modelled by `WField`: it is either
  absent from the report, a numeral string whose numeric value is the given
  rational, or a string on which `float()` / `int()` raises `ValueError`.
  String-valued parameters (`dateutc`, `model`, `PASSKEY`) are `Option String`.
* Python floats are modelled as rationals; the literals `1.60934` and
  `5.0 / 9.0` become the exact rationals `160934 / 100000` and `5 / 9`.
* An exception escaping a parse is modelled by `Option`: `none` is the
  `except` branch that returns `None` (or answers HTTP 500).
* The SQLite store is a list of rows in insertion order; `created_at` is a
  seconds-since-epoch integer, standing for the `YYYY-MM-DD HH:MM:SS` text
  whose lexicographic order agrees with chronological order.
-/

/-- One value of the parsed query dictionary for a numerically coerced key:
`absent` when the key is missing (so `dict.get(key, 0)` yields the int `0`),
`num q` for a numeral string with value `q`, and `malformed` for a string on
which the numeric constructor raises `ValueError`. -/
inductive WField where
  | absent : WField
  | num : ℚ → WField
  | malformed : WField
deriving DecidableEq

/-- `float(weather_data.get(key, 0))`: an absent key defaults to `0`, a
numeral string yields its value, and a malformed string raises (`none`). -/
def pyFloat : WField → Option ℚ
  | WField.absent => some 0
  | WField.num q => some q
  | WField.malformed => none

/-- `int(weather_data.get(key, 0))`: an absent key defaults to `0`, an
integral numeral yields its value, and a non-integral or malformed string
raises (`none`). -/
def pyInt : WField → Option ℤ
  | WField.absent => some 0
  | WField.num q => if q.den = 1 then some q.num else none
  | WField.malformed => none

/-- Python `x or d` on an optional integer: `None` and `0` are falsy. -/
def pyOr (x : Option ℤ) (d : ℤ) : ℤ :=
  match x with
  | none => d
  | some v => if v = 0 then d else v

/-- The parsed query dictionary of one uplink report, restricted to the keys
the ingestion paths read. -/
structure Params where
  id : WField
  windspeedmph : WField
  winddir : WField
  rainratein : WField
  tempinf : WField
  tempf : WField
  humidityin : WField
  humidity : WField
  uv : WField
  windgustmph : WField
  baromrelin : WField
  baromabsin : WField
  solarradiation : WField
  dailyrainin : WField
  raintodayin : WField
  totalrainin : WField
  weeklyrainin : WField
  monthlyrainin : WField
  yearlyrainin : WField
  maxdailygust : WField
  wh65batt : WField
  dateutc : Option String
  model : Option String
  passkey : Option String
deriving DecidableEq

/-- A report in which every parameter is absent. -/
def emptyParams : Params :=
  ⟨WField.absent, WField.absent, WField.absent, WField.absent, WField.absent,
   WField.absent, WField.absent, WField.absent, WField.absent, WField.absent,
   WField.absent, WField.absent, WField.absent, WField.absent, WField.absent,
   WField.absent, WField.absent, WField.absent, WField.absent, WField.absent,
   WField.absent, none, none, none⟩

/-- The exact rational value of the source literal `1.60934` (mph to km/h). -/
def mphToKmh : ℚ := 160934 / 100000

/-- The converted measurement entries of the `converted_data` dictionary,
shared verbatim by `misol_server.py`, `misol_hybrid.py`,
`weather_interceptor.py` and `weather_station.handle_post`. -/
structure NumVals where
  windspeed_kmh : ℚ
  wind_direction : ℤ
  rain_rate_in : ℚ
  temp_in_c : ℚ
  temp_out_c : ℚ
  humidity_in : ℤ
  humidity_out : ℤ
  uv_index : ℚ
  wind_gust_kmh : ℚ
  barometric_pressure_rel_in : ℚ
  barometric_pressure_abs_in : ℚ
  solar_radiation_wm2 : ℚ
  daily_rain_in : ℚ
  rain_today_in : ℚ
  total_rain_in : ℚ
  weekly_rain_in : ℚ
  monthly_rain_in : ℚ
  yearly_rain_in : ℚ
  max_daily_gust : ℚ
  wh65_batt : ℚ
deriving DecidableEq

/-- Whether every numeric coercion of the `converted_data` dictionary
literal succeeds. -/
def numsOk (p : Params) : Bool :=
  (pyFloat p.windspeedmph).isSome && (pyInt p.winddir).isSome &&
  (pyFloat p.rainratein).isSome && (pyFloat p.tempinf).isSome &&
  (pyFloat p.tempf).isSome && (pyInt p.humidityin).isSome &&
  (pyInt p.humidity).isSome && (pyFloat p.uv).isSome &&
  (pyFloat p.windgustmph).isSome && (pyFloat p.baromrelin).isSome &&
  (pyFloat p.baromabsin).isSome && (pyFloat p.solarradiation).isSome &&
  (pyFloat p.dailyrainin).isSome && (pyFloat p.raintodayin).isSome &&
  (pyFloat p.totalrainin).isSome && (pyFloat p.weeklyrainin).isSome &&
  (pyFloat p.monthlyrainin).isSome && (pyFloat p.yearlyrainin).isSome &&
  (pyFloat p.maxdailygust).isSome && (pyFloat p.wh65batt).isSome

/-- The value of each converted entry when every coercion succeeds. -/
def numsVal (p : Params) : NumVals :=
  ⟨(pyFloat p.windspeedmph).getD 0 * mphToKmh,
   (pyInt p.winddir).getD 0,
   (pyFloat p.rainratein).getD 0,
   5 / 9 * ((pyFloat p.tempinf).getD 0 - 32),
   5 / 9 * ((pyFloat p.tempf).getD 0 - 32),
   (pyInt p.humidityin).getD 0,
   (pyInt p.humidity).getD 0,
   (pyFloat p.uv).getD 0,
   (pyFloat p.windgustmph).getD 0 * mphToKmh,
   (pyFloat p.baromrelin).getD 0,
   (pyFloat p.baromabsin).getD 0,
   (pyFloat p.solarradiation).getD 0,
   (pyFloat p.dailyrainin).getD 0,
   (pyFloat p.raintodayin).getD 0,
   (pyFloat p.totalrainin).getD 0,
   (pyFloat p.weeklyrainin).getD 0,
   (pyFloat p.monthlyrainin).getD 0,
   (pyFloat p.yearlyrainin).getD 0,
   (pyFloat p.maxdailygust).getD 0,
   (pyFloat p.wh65batt).getD 0⟩

/-- The numeric entries of the `converted_data` dictionary literal: each
`float(...)` / `int(...)` coercion in dictionary order, then the unit
conversions `kmh = mph * 1.60934` and `C = (5/9) * (F - 32)`.  In the source
the literal is built inside a `try`; the first coercion that raises
`ValueError` aborts the whole dictionary, so the result is the dictionary of
converted values when every coercion succeeds and `none` otherwise. -/
def coerceNums (p : Params) : Option NumVals :=
  if numsOk p then some (numsVal p) else none

/-- A civil timestamp with second precision, as handled by
`datetime.strptime(s, "%Y-%m-%d %H:%M:%S")`. -/
structure Ts where
  year : ℕ
  month : ℕ
  day : ℕ
  hour : ℕ
  minute : ℕ
  second : ℕ
deriving DecidableEq

/-- Gregorian leap-year rule, as used by `datetime`. -/
def isLeapYear (y : ℕ) : Bool :=
  (y % 4 = 0 && y % 100 ≠ 0) || y % 400 = 0

/-- Number of days of a month, as validated by `datetime`. -/
def daysInMonth (y m : ℕ) : ℕ :=
  if m = 2 then (if isLeapYear y then 29 else 28)
  else if m = 4 ∨ m = 6 ∨ m = 9 ∨ m = 11 then 30
  else 31

/-- Numeric value of a digit character. -/
def digitVal (c : Char) : ℕ := c.toNat - 48

/-- Python's regex `\s` on a whitespace character: the complete Unicode
whitespace list used by the `re` module for text patterns
(U+0009-U+000D, U+001C-U+0020, U+0085, U+00A0, U+1680, U+2000-U+200A,
U+2028, U+2029, U+202F, U+205F, U+3000). -/
def pyWhitespace (c : Char) : Bool :=
  decide ((9 ≤ c.toNat ∧ c.toNat ≤ 13) ∨ (28 ≤ c.toNat ∧ c.toNat ≤ 32) ∨
    c.toNat = 133 ∨ c.toNat = 160 ∨ c.toNat = 5760 ∨
    (8192 ≤ c.toNat ∧ c.toNat ≤ 8202) ∨ c.toNat = 8232 ∨ c.toNat = 8233 ∨
    c.toNat = 8239 ∨ c.toNat = 8287 ∨ c.toNat = 12288)

/-- The `%Y` group `\d\d\d\d`: exactly four digits, returning the value
and the rest of the input. -/
def parse4Digit : List Char → Option (ℕ × List Char)
  | c1 :: c2 :: c3 :: c4 :: rest =>
    if c1.isDigit ∧ c2.isDigit ∧ c3.isDigit ∧ c4.isDigit then
      some (1000 * digitVal c1 + 100 * digitVal c2 + 10 * digitVal c3 +
        digitVal c4, rest)
    else none
  | _ => none

/-- A one-or-two-digit group (`%m`, `%d`, `%H`, `%M`, `%S`): the maximal
run of at most two digits, returning its value and the rest.  When a third
digit or an out-of-range value follows, the caller's separator or range
check fails, exactly as the backtracking regex does (a one-digit retry
would place a digit where the non-digit separator is required). -/
def parse2Digit : List Char → Option (ℕ × List Char)
  | [] => none
  | [c1] => if c1.isDigit then some (digitVal c1, []) else none
  | c1 :: c2 :: rest =>
    if c1.isDigit then
      if c2.isDigit then some (10 * digitVal c1 + digitVal c2, rest)
      else some (digitVal c1, c2 :: rest)
    else none

/-- A literal separator character of the format. -/
def expectChar (c : Char) : List Char → Option (List Char)
  | x :: rest => if x = c then some rest else none
  | [] => none

/-- The `\s+` the format's space is compiled to: one or more whitespace
characters (greedy, and no digit is whitespace, so greediness is exact). -/
def skipWs1 : List Char → Option (List Char)
  | x :: rest =>
    if pyWhitespace x then some (rest.dropWhile pyWhitespace) else none
  | [] => none

/-- `datetime.strptime(s, "%Y-%m-%d %H:%M:%S")`.  CPython compiles the
format to a regex: `\d\d\d\d` for `%Y`, one-or-two-digit groups for
`%m`, `%d`, `%H`, `%M`, `%S` (so non-zero-padded components such as
`2024-1-1 2:3:4` parse), the literal `-` and `:` separators, and `\s+` for
the format's space (so any nonempty whitespace run separates date and
time); the match must consume the whole string.  The group patterns bound
the values (month 1-12, day 1-31, hour 0-23, minute 0-59, second 0-61) and
the `datetime` constructor then rejects year 0, a day beyond the month's
length and the leap seconds 60-61, raising `ValueError` exactly like a
failed match — both outcomes are `none` here.  Digits are modelled as
ASCII: CPython's `\d` also accepts non-ASCII Unicode decimal digits,
which are outside this model and excluded by an ASCII hypothesis where the
parse boundary matters. -/
def strptimeYmdHms (s : String) : Option Ts := do
  let (y, r1) ← parse4Digit s.data
  let r2 ← expectChar (Char.ofNat 45) r1
  let (mo, r3) ← parse2Digit r2
  let r4 ← expectChar (Char.ofNat 45) r3
  let (da, r5) ← parse2Digit r4
  let r6 ← skipWs1 r5
  let (hh, r7) ← parse2Digit r6
  let r8 ← expectChar (Char.ofNat 58) r7
  let (mi, r9) ← parse2Digit r8
  let r10 ← expectChar (Char.ofNat 58) r9
  let (se, r11) ← parse2Digit r10
  if r11 = [] ∧ 1 ≤ y ∧ 1 ≤ mo ∧ mo ≤ 12 ∧ 1 ≤ da ∧ da ≤ daysInMonth y mo ∧
      hh ≤ 23 ∧ mi ≤ 59 ∧ se ≤ 59 then
    some ⟨y, mo, da, hh, mi, se⟩
  else none

/-- `dt + timedelta(hours=7)` on a civil timestamp, carrying into day, month
and year as needed (seven hours can cross at most one midnight). -/
def addSevenHours (t : Ts) : Ts :=
  let hh := t.hour + 7
  if hh ≤ 23 then { t with hour := hh }
  else
    let hh := hh - 24
    if t.day + 1 ≤ daysInMonth t.year t.month then
      { t with day := t.day + 1, hour := hh }
    else if t.month + 1 ≤ 12 then
      { t with month := t.month + 1, day := 1, hour := hh }
    else
      { year := t.year + 1, month := 1, day := 1, hour := hh,
        minute := t.minute, second := t.second }

/-- Left-pad a numeral with zeros to the given width. -/
def padZeros (w n : ℕ) : String :=
  let s := toString n
  String.mk (List.replicate (w - s.length) '0') ++ s

/-- `dt.strftime("%Y-%m-%d %H:%M:%S")`. -/
def fmtTs (t : Ts) : String :=
  padZeros 4 t.year ++ "-" ++ padZeros 2 t.month ++ "-" ++ padZeros 2 t.day ++
  " " ++ padZeros 2 t.hour ++ ":" ++ padZeros 2 t.minute ++ ":" ++
  padZeros 2 t.second

/-- `s.replace("+", " ")`: every `+` character becomes a space. -/
def replacePlus (s : String) : String :=
  String.mk (s.data.map fun c => if c = '+' then ' ' else c)

/-- The canonical `converted_data` record handed to the store: the
`TelemetryReading` of the specification. -/
structure Reading where
  device_id : ℤ
  datetime : String
  windspeed_kmh : ℚ
  wind_direction : ℤ
  rain_rate_in : ℚ
  temp_in_c : ℚ
  temp_out_c : ℚ
  humidity_in : ℤ
  humidity_out : ℤ
  uv_index : ℚ
  wind_gust_kmh : ℚ
  barometric_pressure_rel_in : ℚ
  barometric_pressure_abs_in : ℚ
  solar_radiation_wm2 : ℚ
  daily_rain_in : ℚ
  rain_today_in : ℚ
  total_rain_in : ℚ
  weekly_rain_in : ℚ
  monthly_rain_in : ℚ
  yearly_rain_in : ℚ
  max_daily_gust : ℚ
  wh65_batt : ℚ
  model : String
  passkey : String
deriving DecidableEq

/-- Assemble a `Reading` from resolved identity, timestamp, converted
numeric values and the copied string parameters. -/
def mkReading (dev : ℤ) (dt : String) (n : NumVals) (p : Params) : Reading :=
  ⟨dev, dt, n.windspeed_kmh, n.wind_direction, n.rain_rate_in, n.temp_in_c,
   n.temp_out_c, n.humidity_in, n.humidity_out, n.uv_index, n.wind_gust_kmh,
   n.barometric_pressure_rel_in, n.barometric_pressure_abs_in,
   n.solar_radiation_wm2, n.daily_rain_in, n.rain_today_in, n.total_rain_in,
   n.weekly_rain_in, n.monthly_rain_in, n.yearly_rain_in, n.max_daily_gust,
   n.wh65_batt, p.model.getD "", p.passkey.getD ""⟩

/-- `MisolHandler.parse_weather_data` of `misol_server.py` (identical in
`misol_hybrid.py`): the device id is `self.device_id or 99`, the timestamp
is the local wall-clock capture time `now`, the measurements are the shared
converted dictionary, and any coercion failure is caught, returning `None`. -/
def misolParseWeatherData (deviceId : Option ℤ) (now : String) (p : Params) :
    Option Reading :=
  (coerceNums p).map fun n => mkReading (pyOr deviceId 99) now n p

/-- `WeatherInterceptor.parse_weather_data` of `weather_interceptor.py`: the
device id is `self.device_id` resolved at settings load, and the timestamp
is taken from the wire `dateutc` value (with `+` replaced by spaces),
shifted by seven hours when it parses and kept verbatim otherwise. -/
def interceptorParseWeatherData (deviceId : ℤ) (p : Params) : Option Reading :=
  let utc := replacePlus (p.dateutc.getD "")
  let localDt :=
    match strptimeYmdHms utc with
    | some t => fmtTs (addSevenHours t)
    | none => utc
  (coerceNums p).map fun n => mkReading deviceId localDt n p

/-- `WeatherInterceptor.load_settings`: the configured id of the legacy
settings file, overridden by the Raspberry Pi settings file, with fixed
fallback `99` when neither supplies one. -/
def interceptorLoadDeviceId (legacyId raspiId : Option ℤ) : ℤ :=
  match raspiId with
  | some v => v
  | none => match legacyId with
    | some v => v
    | none => 99

/-- `weather_station.handle_post` parsing: the device id comes from the
wire `id` parameter when supplied (`int(...)`, raising on a malformed
value), else from `raspi_settings["device_id"]`, else from the legacy
`settings["id"]`, else the constant `1`; then the shared converted
dictionary; then, when `dateutc` is nonempty, it must parse as
`%Y-%m-%d %H:%M:%S` (a malformed value raises out of the route) and is
shifted by seven hours.  `handle_post` copies no `model`/`PASSKEY` keys, so
the store defaults both to the empty string. -/
def handlePostDeviceId (raspiId legacyId : Option ℤ) : WField → Option ℤ
  | WField.absent => some (raspiId.getD (legacyId.getD 1))
  | WField.num q => if q.den = 1 then some q.num else none
  | WField.malformed => none

/-- The `dateutc` handling of `handle_post`: an absent or empty value keeps
the empty string; otherwise the value must parse as `%Y-%m-%d %H:%M:%S` (a
malformed value raises `ValueError` out of the route) and is shifted by
seven hours and re-formatted. -/
def handlePostDatetime (dateutc : Option String) : Option String :=
  if dateutc.getD "" = "" then some ""
  else (strptimeYmdHms (dateutc.getD "")).map fun t => fmtTs (addSevenHours t)

def handlePostParse (raspiId legacyId : Option ℤ) (p : Params) :
    Option Reading :=
  match handlePostDeviceId raspiId legacyId p.id, coerceNums p,
      handlePostDatetime p.dateutc with
  | some dev, some n, some dt =>
    some { mkReading dev dt n p with model := "", passkey := "" }
  | _, _, _ => none

/-- Body of a `weather_station.handle_post` response: `dataSaved` stands for
the text `Data saved to database.`, `failedToSave` for
`Failed to save data.` and `errorMsg` for the `Error: ...` text of the
exception branch. -/
inductive PostRouteBody where
  | dataSaved : PostRouteBody
  | failedToSave : PostRouteBody
  | errorMsg : PostRouteBody
deriving DecidableEq

/-- The `weather_station.handle_post` route: an exception while decoding
answers 500 with the error text; otherwise the reading is saved and the
route answers 200 on success and 500 on store failure (`saveOk` abstracts
the outcome of `save_weather_data`). -/
def handlePost (raspiId legacyId : Option ℤ) (saveOk : Bool) (p : Params) :
    ℕ × PostRouteBody :=
  match handlePostParse raspiId legacyId p with
  | none => (500, PostRouteBody.errorMsg)
  | some _ =>
    if saveOk then (200, PostRouteBody.dataSaved)
    else (500, PostRouteBody.failedToSave)

/-- One stored row of the `weather_data` table: the reading plus the
`created_at` insertion timestamp (seconds; the TEXT column order agrees). -/
structure DbRow where
  reading : Reading
  created_at : ℤ
deriving DecidableEq

/-- `WeatherDatabase.save_weather_data` of `database.py`: a single
unconditional `INSERT` of the row, returning `True`.  The method performs no
`SELECT` on the (`device_id`, `datetime`) key before writing. -/
def saveWeatherData (db : List DbRow) (r : Reading) (now : ℤ) :
    List DbRow × Bool :=
  (db ++ [⟨r, now⟩], true)

/-- `WeatherDatabase` (database.py) defines exactly `init_database`,
`save_weather_data`, `get_recent_data`, `get_latest_data`,
`get_database_info`, `cleanup_old_data` and `reset_database`.  It never sets
a `last_insert_duplicate` attribute, so reading it raises `AttributeError`. -/
def dbHasLastInsertDuplicate : Bool := false

/-- `WeatherDatabase` defines no `mark_uploaded` method, so the call at
`weather_station.py:270` raises `AttributeError`. -/
def dbHasMarkUploaded : Bool := false

/-- `MisolHandler._handle_request` of `misol_hybrid.py` (the
`do_GET`/`do_POST` bodies of `misol_server.py` are the same shape): when the
structurally read query string carries weather parameters
(`hasWeatherParams`), the reading is parsed and saved — the handler-level
`save_weather_data` catches every exception, including the
`AttributeError` from reading the missing `last_insert_duplicate`
attribute after the row was already inserted — and the response is
`200` with body `success\n` in every case. -/
def misolHandleRequest (hasWeatherParams : Bool) (deviceId : Option ℤ)
    (now : String) (createdAt : ℤ) (p : Params) (db : List DbRow) :
    (ℕ × String) × List DbRow :=
  let db2 :=
    if hasWeatherParams then
      match misolParseWeatherData deviceId now p with
      | some r => (saveWeatherData db r createdAt).1
      | none => db
    else db
  ((200, "success\n"), db2)

/-- `sync_data_to_server` of `weather_station.py`.  `enabled` is
`external_sync.enabled`, `online` the `check_internet_connection` result,
and `resp` the outcome of `requests.post`: `none` when the request raises
(timeout or connection error), `some code` for an HTTP status.  When the
status is 200 the code calls `db.mark_uploaded`, which `WeatherDatabase`
does not define, so the `AttributeError` lands in the `except` branch,
which appends a copy of the reading to the queue and returns `False`. -/
def syncDataToServer (enabled online : Bool) (resp : Option ℕ) (r : Reading)
    (queue : List Reading) : List Reading × Bool :=
  if ¬ enabled then (queue, false)
  else if ¬ online then (queue ++ [r], false)
  else
    match resp with
    | none => (queue ++ [r], false)
    | some code =>
      if code = 200 then
        if dbHasMarkUploaded then (queue, true)
        else (queue ++ [r], false)
      else (queue ++ [r], false)

/-- The queue-limiting step at the end of `process_sync_queue`
(`weather_station.py:309-312`): when more than 1000 entries are pending,
keep the slice `[-1000:]`, dropping the oldest. -/
def trimSyncQueue (q : List Reading) : List Reading :=
  if 1000 < q.length then q.drop (q.length - 1000) else q

/-- `process_sync_queue` of `weather_station.py`: return unchanged when
offline or when the queue is empty; otherwise copy and clear the queue,
re-run `sync_data_to_server` on each entry in order (failures re-append to
the cleared queue; `resp i` is the HTTP outcome of the i-th attempt,
connectivity held fixed during the pass), then apply the size limit. -/
def processSyncQueue (enabled online : Bool) (resp : ℕ → Option ℕ)
    (queue : List Reading) : List Reading :=
  if ¬ online then queue
  else if queue.isEmpty then queue
  else
    let step : (List Reading × ℕ) → Reading → (List Reading × ℕ) :=
      fun acc r =>
        ((syncDataToServer enabled online (resp acc.2) r acc.1).1, acc.2 + 1)
    trimSyncQueue (queue.foldl step ([], 0)).1

/-- `WeatherDatabase.cleanup_old_data`: the cutoff is `now` minus `days`
days; the rows with `created_at < cutoff` are counted, and when any exist
they are deleted (younger rows are untouched); the method returns
`(True, count)`, with no error in the zero-row case. -/
def cleanupOldData (db : List DbRow) (now : ℤ) (days : ℕ) :
    List DbRow × (Bool × ℕ) :=
  let cutoff := now - (days : ℤ) * 86400
  let countToDelete := db.countP (fun row => decide (row.created_at < cutoff))
  if 0 < countToDelete then
    (db.filter (fun row => decide (cutoff ≤ row.created_at)),
     (true, countToDelete))
  else (db, (true, countToDelete))

/-- The outbound `sync_data` dictionary of `sync_data_to_server`
(`weather_station.py:236-259`): the original imperial wire vocabulary
reconstructed from a canonical reading by the inverse unit conversions
`mph = kmh / 1.60934` and `F = C * 9/5 + 32`, all other fields copied. -/
structure WireOut where
  id : ℤ
  dateutc : String
  windspeedmph : ℚ
  winddir : ℤ
  rainratein : ℚ
  tempinf : ℚ
  tempf : ℚ
  humidityin : ℤ
  humidity : ℤ
  uv : ℚ
  windgustmph : ℚ
  baromrelin : ℚ
  baromabsin : ℚ
  solarradiation : ℚ
  dailyrainin : ℚ
  raintodayin : ℚ
  totalrainin : ℚ
  weeklyrainin : ℚ
  monthlyrainin : ℚ
  yearlyrainin : ℚ
  maxdailygust : ℚ
  wh65batt : ℚ
deriving DecidableEq

/-- Build the `sync_data` dictionary from a stored reading. -/
def toImperialWire (r : Reading) : WireOut :=
  ⟨r.device_id, r.datetime, r.windspeed_kmh / mphToKmh, r.wind_direction,
   r.rain_rate_in, r.temp_in_c * 9 / 5 + 32, r.temp_out_c * 9 / 5 + 32,
   r.humidity_in, r.humidity_out, r.uv_index, r.wind_gust_kmh / mphToKmh,
   r.barometric_pressure_rel_in, r.barometric_pressure_abs_in,
   r.solar_radiation_wm2, r.daily_rain_in, r.rain_today_in, r.total_rain_in,
   r.weekly_rain_in, r.monthly_rain_in, r.yearly_rain_in, r.max_daily_gust,
   r.wh65_batt⟩

/-- A concrete reading used by the closed evaluations. -/
def sampleReading : Reading :=
  ⟨99, "2024-01-01 12:00:00", 0, 0, 0, 0, 0, 0, 0, 0, 0, 0, 0, 0, 0, 0, 0,
   0, 0, 0, 0, 0, "", ""⟩

/-- A report carrying only a malformed `tempf` value. -/
def pBadTempf : Params := { emptyParams with tempf := WField.malformed }

/-- A report carrying only a malformed `windspeedmph` value. -/
def pBadWindspeed : Params := { emptyParams with windspeedmph := WField.malformed }

lemma trimSyncQueue_length_le (q : List Reading) :
    (trimSyncQueue q).length ≤ 1000 := by
  unfold trimSyncQueue
  split
  · rw [List.length_drop]; omega
  · omega

lemma trimSyncQueue_suffix (q : List Reading) : trimSyncQueue q <:+ q := by
  unfold trimSyncQueue
  split
  · exact List.drop_suffix _ _
  · exact List.suffix_refl q

/-- C1: the store's insert performs no duplicate check: saving the same
reading twice on an empty store yields two rows with the same
(`device_id`, `datetime`) key, each call returning `True`, and the store
exposes no duplicate signal (`last_insert_duplicate` does not exist). -/
theorem c1_second_insert_writes_again :
    ((saveWeatherData (saveWeatherData [] sampleReading 100).1
        sampleReading 200).1.countP
      (fun row => decide (row.reading.device_id = sampleReading.device_id ∧
        row.reading.datetime = sampleReading.datetime)) = 2)
    ∧ (saveWeatherData (saveWeatherData [] sampleReading 100).1
        sampleReading 200).2 = true
    ∧ dbHasLastInsertDuplicate = false := by
  refine ⟨by decide, rfl, rfl⟩

/-- C2: with sync enabled and connectivity up, a relay attempt answered by
HTTP 200 still re-enqueues the reading and reports failure, because the
success branch calls the missing `db.mark_uploaded` and the resulting
`AttributeError` falls into the re-enqueueing `except` branch. -/
theorem c2_http200_reenqueues_and_fails :
    syncDataToServer true true (some 200) sampleReading [] =
      ([sampleReading], false)
    ∧ dbHasMarkUploaded = false := ⟨rfl, rfl⟩

/-- C3 counterexample: with 1000 entries already queued, an offline
`sync_data_to_server` enqueues an 1001st entry — the queue exceeds the
configured maximum between `process_sync_queue` passes. -/
theorem c3_queue_exceeds_bound :
    1000 < ((syncDataToServer true false none sampleReading
      (List.replicate 1000 sampleReading)).1).length := by
  have h : (syncDataToServer true false none sampleReading
      (List.replicate 1000 sampleReading)).1 =
      List.replicate 1000 sampleReading ++ [sampleReading] := rfl
  rw [h, List.length_append, List.length_replicate, List.length_singleton]
  omega

/-- C3 amended: the 1000-entry bound is enforced only by the trimming step
at the end of a `process_sync_queue` pass: the trim always leaves at most
1000 entries and keeps a suffix of the pending list (newest kept, oldest
dropped), and any online `process_sync_queue` pass leaves at most 1000
entries; `sync_data_to_server` itself enqueues without bound. -/
theorem c3_bound_only_after_sync_pass :
    (∀ q : List Reading,
      (trimSyncQueue q).length ≤ 1000 ∧ trimSyncQueue q <:+ q)
    ∧ ∀ (enabled : Bool) (resp : ℕ → Option ℕ) (queue : List Reading),
        (processSyncQueue enabled true resp queue).length ≤ 1000 := by
  constructor
  · exact fun q => ⟨trimSyncQueue_length_le q, trimSyncQueue_suffix q⟩
  · intro enabled resp queue
    unfold processSyncQueue
    cases queue with
    | nil => simp
    | cons r t => simpa using trimSyncQueue_length_le _

/-- C4 counterexample: a structurally readable POST on the configured
`/post` path whose `tempf` value fails float coercion makes `handle_post`
raise into its error branch and answer HTTP 500, not 200 `success`. -/
theorem c4_post_route_returns_500 :
    handlePost (some 44) (some 1) true pBadTempf = (500, PostRouteBody.errorMsg)
    ∧ (500 : ℕ) ≠ 200 := by
  refine ⟨by decide, by decide⟩

/-- C4 amended: the misol ingestion handlers answer HTTP 200 with body
`success` (plus a trailing newline) for every structurally read request,
regardless of parse or store outcome; the Flask `handle_post` route of
`weather_station.py` instead answers 500 when decoding or storing fails and
200 with body `Data saved to database.` on success. -/
theorem c4_misol_always_success :
    ∀ (hw : Bool) (d : Option ℤ) (now : String) (t : ℤ) (p : Params)
      (db : List DbRow),
      (misolHandleRequest hw d now t p db).1 = (200, "success\n") := by
  intro hw d now t p db
  rfl

lemma cleanup_complement (db : List DbRow) (cutoff : ℤ) :
    db.countP (fun row => decide (row.created_at < cutoff)) +
      (db.filter (fun row => decide (cutoff ≤ row.created_at))).length =
      db.length := by
  induction db with
  | nil => rfl
  | cons r t ih =>
    simp only [List.countP_cons, List.filter_cons, List.length_cons]
    by_cases h : r.created_at < cutoff
    · have h2 : ¬ cutoff ≤ r.created_at := not_le.mpr h
      simp [h, h2]
      omega
    · have h2 : cutoff ≤ r.created_at := not_lt.mp h
      simp [h, h2]
      omega

lemma cleanupOldData_eq (db : List DbRow) (now : ℤ) (days : ℕ) :
    cleanupOldData db now days =
      (db.filter (fun row => decide (now - (days : ℤ) * 86400 ≤ row.created_at)),
       (true,
        db.countP (fun row => decide (row.created_at < now - (days : ℤ) * 86400)))) := by
  simp only [cleanupOldData]
  split
  · rfl
  · rename_i h
    have h0 : db.countP
        (fun row => decide (row.created_at < now - (days : ℤ) * 86400)) = 0 := by
      omega
    have hall := List.countP_eq_zero.mp h0
    have hfix : db.filter
        (fun row => decide (now - (days : ℤ) * 86400 ≤ row.created_at)) = db := by
      refine List.filter_eq_self.mpr fun a ha => ?_
      have := hall a ha
      simp only [decide_eq_true_eq] at this ⊢
      omega
    rw [hfix, h0]

/-- C9: `cleanup_old_data(days)` deletes exactly the rows whose insertion
time precedes `now` minus `days` days, leaves the younger rows unchanged in
order, reports no error, returns a count equal to the number of rows
removed, and on a store with no qualifying row returns 0 and leaves the
store intact. -/
theorem c9_purge_exact : ∀ (db : List DbRow) (now : ℤ) (days : ℕ),
    (cleanupOldData db now days).1 =
      db.filter (fun row => decide (now - (days : ℤ) * 86400 ≤ row.created_at))
    ∧ (cleanupOldData db now days).2.1 = true
    ∧ (cleanupOldData db now days).2.2 + (cleanupOldData db now days).1.length
        = db.length
    ∧ ((∀ row ∈ db, now - (days : ℤ) * 86400 ≤ row.created_at) →
        (cleanupOldData db now days).2.2 = 0
        ∧ (cleanupOldData db now days).1 = db) := by
  intro db now days
  rw [cleanupOldData_eq]
  refine ⟨rfl, rfl, cleanup_complement db _, fun hall => ⟨?_, ?_⟩⟩
  · refine List.countP_eq_zero.mpr fun a ha => ?_
    have := hall a ha
    simp only [decide_eq_true_eq]
    omega
  · refine List.filter_eq_self.mpr fun a ha => ?_
    have := hall a ha
    simp only [decide_eq_true_eq]
    omega

/-- Witness for C9: on a store whose single row is younger than the
horizon, the purge returns 0 and removes nothing. -/
theorem c9_purge_exact_witness :
    (cleanupOldData [⟨sampleReading, 1000⟩] 1000 60).2.2 = 0
    ∧ (cleanupOldData [⟨sampleReading, 1000⟩] 1000 60).1 =
        [⟨sampleReading, 1000⟩] := by
  have h := c9_purge_exact [⟨sampleReading, 1000⟩] 1000 60
  exact h.2.2.2 (by decide)

lemma coerceNums_some (p : Params) (n : NumVals) (h : coerceNums p = some n) :
    n = numsVal p := by
  unfold coerceNums at h
  split at h
  · simpa using h.symm
  · exact Option.noConfusion h

/-- The wire report of Scenario A:
`tempf=75&humidity=60&windspeedmph=5&PASSKEY=ABC`. -/
def scenarioA : Params :=
  { emptyParams with
    tempf := WField.num 75
    humidity := WField.num 60
    windspeedmph := WField.num 5
    passkey := some "ABC" }

lemma numsOk_emptyParams : numsOk emptyParams = true := by
  simp [numsOk, emptyParams, pyFloat, pyInt]

lemma numsOk_scenarioA : numsOk scenarioA = true := by
  simp [numsOk, scenarioA, emptyParams, pyFloat, pyInt]

/-- C5: the decoder converts temperatures by `C = (F - 32) * 5/9` and wind
speeds by `kmh = mph * 1.60934` for every wire report; in particular
Scenario A decodes to `temp_out_c` within 0.01 of 23.89, `humidity_out`
exactly 60 and `windspeed_kmh` within 0.001 of 8.047. -/
theorem c5_unit_conversions :
    (∀ (p : Params) (n : NumVals), coerceNums p = some n →
      (∀ f : ℚ, p.tempf = WField.num f → n.temp_out_c = 5 / 9 * (f - 32))
      ∧ (∀ f : ℚ, p.tempinf = WField.num f → n.temp_in_c = 5 / 9 * (f - 32))
      ∧ (∀ w : ℚ, p.windspeedmph = WField.num w →
          n.windspeed_kmh = w * mphToKmh)
      ∧ (∀ w : ℚ, p.windgustmph = WField.num w →
          n.wind_gust_kmh = w * mphToKmh))
    ∧ (∃ r : Reading,
        misolParseWeatherData (some 44) "2024-01-01 12:00:00" scenarioA =
          some r
        ∧ |r.temp_out_c - 2389 / 100| < 1 / 100
        ∧ r.humidity_out = 60
        ∧ |r.windspeed_kmh - 8047 / 1000| ≤ 1 / 1000) := by
  constructor
  · intro p n h
    have hn := coerceNums_some p n h
    subst hn
    refine ⟨?_, ?_, ?_, ?_⟩ <;> intro v hv <;> simp [numsVal, hv, pyFloat]
  · refine ⟨mkReading 44 "2024-01-01 12:00:00" (numsVal scenarioA) scenarioA,
      ?_, ?_, ?_, ?_⟩
    · simp [misolParseWeatherData, coerceNums, numsOk_scenarioA, pyOr]
    · have ht : (mkReading 44 "2024-01-01 12:00:00" (numsVal scenarioA)
          scenarioA).temp_out_c = 215 / 9 := by
        norm_num [mkReading, numsVal, scenarioA, emptyParams, pyFloat]
      rw [ht, abs_sub_lt_iff]
      constructor <;> norm_num
    · norm_num [mkReading, numsVal, scenarioA, emptyParams, pyInt]
    · have hw : (mkReading 44 "2024-01-01 12:00:00" (numsVal scenarioA)
          scenarioA).windspeed_kmh = 5 * mphToKmh := by
        norm_num [mkReading, numsVal, scenarioA, emptyParams, pyFloat]
      rw [hw, abs_sub_le_iff]
      constructor <;> norm_num [mphToKmh]

/-- Witness for C5: applying the conversion law to Scenario A. -/
theorem c5_unit_conversions_witness :
    (numsVal scenarioA).temp_out_c = 5 / 9 * (75 - 32)
    ∧ (numsVal scenarioA).windspeed_kmh = 5 * mphToKmh := by
  have h := c5_unit_conversions.1 scenarioA (numsVal scenarioA)
    (by simp [coerceNums, numsOk_scenarioA])
  exact ⟨h.1 75 rfl, h.2.2.1 5 rfl⟩

/-- C8 counterexample: a report whose `windspeedmph` value fails float
coercion makes the decoder return `None` — the whole reading is dropped,
not defaulted to 0; and an absent `tempf` is defaulted to 0 Fahrenheit
before conversion, so the stored `temp_out_c` is -160/9, not 0. -/
theorem c8_malformed_drops_reading :
    misolParseWeatherData (some 44) "2024-01-01 12:00:00" pBadWindspeed = none
    ∧ (misolParseWeatherData (some 44) "2024-01-01 12:00:00"
        emptyParams).map Reading.temp_out_c = some (-(160 / 9)) := by
  constructor
  · simp [misolParseWeatherData, coerceNums, numsOk, pBadWindspeed,
      emptyParams, pyFloat]
  · have h1 : misolParseWeatherData (some 44) "2024-01-01 12:00:00"
        emptyParams = some (mkReading 44 "2024-01-01 12:00:00"
          (numsVal emptyParams) emptyParams) := by
      simp [misolParseWeatherData, coerceNums, numsOk_emptyParams, pyOr]
    rw [h1]
    norm_num [mkReading, numsVal, emptyParams, pyFloat]

/-- C8 amended: an absent wire field is defaulted to 0 before unit
conversion (so plain and scaled fields store 0, while the temperature
fields store `5/9 * (0 - 32)`), but a present field whose value fails
numeric coercion aborts the whole parse: the decoder returns `None` and
the reading is dropped. -/
theorem c8_absent_defaults :
    (∀ (p : Params) (n : NumVals), coerceNums p = some n →
      (p.windspeedmph = WField.absent → n.windspeed_kmh = 0)
      ∧ (p.winddir = WField.absent → n.wind_direction = 0)
      ∧ (p.rainratein = WField.absent → n.rain_rate_in = 0)
      ∧ (p.tempinf = WField.absent → n.temp_in_c = 5 / 9 * (0 - 32))
      ∧ (p.tempf = WField.absent → n.temp_out_c = 5 / 9 * (0 - 32))
      ∧ (p.humidityin = WField.absent → n.humidity_in = 0)
      ∧ (p.humidity = WField.absent → n.humidity_out = 0)
      ∧ (p.uv = WField.absent → n.uv_index = 0)
      ∧ (p.windgustmph = WField.absent → n.wind_gust_kmh = 0)
      ∧ (p.baromrelin = WField.absent → n.barometric_pressure_rel_in = 0)
      ∧ (p.baromabsin = WField.absent → n.barometric_pressure_abs_in = 0)
      ∧ (p.solarradiation = WField.absent → n.solar_radiation_wm2 = 0)
      ∧ (p.dailyrainin = WField.absent → n.daily_rain_in = 0)
      ∧ (p.raintodayin = WField.absent → n.rain_today_in = 0)
      ∧ (p.totalrainin = WField.absent → n.total_rain_in = 0)
      ∧ (p.weeklyrainin = WField.absent → n.weekly_rain_in = 0)
      ∧ (p.monthlyrainin = WField.absent → n.monthly_rain_in = 0)
      ∧ (p.yearlyrainin = WField.absent → n.yearly_rain_in = 0)
      ∧ (p.maxdailygust = WField.absent → n.max_daily_gust = 0)
      ∧ (p.wh65batt = WField.absent → n.wh65_batt = 0))
    ∧ (∀ p : Params, p.windspeedmph = WField.malformed →
        coerceNums p = none) := by
  constructor
  · intro p n h
    have hn := coerceNums_some p n h
    subst hn
    refine ⟨?_, ?_, ?_, ?_, ?_, ?_, ?_, ?_, ?_, ?_, ?_, ?_, ?_, ?_, ?_,
      ?_, ?_, ?_, ?_, ?_⟩ <;>
      intro hv <;> simp [numsVal, hv, pyFloat, pyInt]
  · intro p h
    simp [coerceNums, numsOk, h, pyFloat]

/-- Witness for C8 amended: the all-absent report decodes with wind speed 0
and outdoor temperature `5/9 * (0 - 32)`. -/
theorem c8_absent_defaults_witness :
    (numsVal emptyParams).windspeed_kmh = 0
    ∧ (numsVal emptyParams).temp_out_c = 5 / 9 * (0 - 32) := by
  have h := c8_absent_defaults.1 emptyParams (numsVal emptyParams)
    (by simp [coerceNums, numsOk_emptyParams])
  exact ⟨h.1 rfl, h.2.2.2.2.1 rfl⟩

lemma handlePostParse_inv {rid lid : Option ℤ} {p : Params} {r : Reading}
    (h : handlePostParse rid lid p = some r) :
    ∃ dev dt, handlePostDeviceId rid lid p.id = some dev
      ∧ handlePostDatetime p.dateutc = some dt
      ∧ r = { mkReading dev dt (numsVal p) p with
              model := "", passkey := "" } := by
  unfold handlePostParse at h
  cases hdev : handlePostDeviceId rid lid p.id with
  | none => rw [hdev] at h; simp at h
  | some dev =>
    rw [hdev] at h
    cases hn : coerceNums p with
    | none => rw [hn] at h; simp at h
    | some n =>
      rw [hn] at h
      cases hdt : handlePostDatetime p.dateutc with
      | none => rw [hdt] at h; simp at h
      | some dt =>
        rw [hdt] at h
        simp only [Option.some.injEq] at h
        have hnv := coerceNums_some p n hn
        subst hnv
        exact ⟨dev, dt, rfl, rfl, h.symm⟩

lemma roundtrip_mul (v : ℚ) : |v * mphToKmh / mphToKmh - v| ≤ 1 / 1000 := by
  rw [mul_div_cancel_right₀ v (by norm_num [mphToKmh] : mphToKmh ≠ 0)]
  simp

lemma roundtrip_temp (v : ℚ) :
    |5 / 9 * (v - 32) * 9 / 5 + 32 - v| ≤ 1 / 1000 := by
  have h : 5 / 9 * (v - 32) * 9 / 5 + 32 - v = 0 := by ring
  rw [h, abs_zero]
  norm_num

/-- C6: for every wire report accepted by the `handle_post` decoder, the
outbound imperial reconstruction used for relay recovers every original
numeric field value within 1e-3 (the copied fields exactly, the converted
temperature and wind-speed fields within the tolerance). -/
theorem c6_roundtrip : ∀ (rid lid : Option ℤ) (p : Params) (r : Reading),
    handlePostParse rid lid p = some r →
    (∀ z : ℤ, p.id = WField.num (z : ℚ) → (toImperialWire r).id = z)
    ∧ (∀ v : ℚ, p.windspeedmph = WField.num v →
        |(toImperialWire r).windspeedmph - v| ≤ 1 / 1000)
    ∧ (∀ z : ℤ, p.winddir = WField.num (z : ℚ) → (toImperialWire r).winddir = z)
    ∧ (∀ v : ℚ, p.rainratein = WField.num v → (toImperialWire r).rainratein = v)
    ∧ (∀ v : ℚ, p.tempinf = WField.num v →
        |(toImperialWire r).tempinf - v| ≤ 1 / 1000)
    ∧ (∀ v : ℚ, p.tempf = WField.num v →
        |(toImperialWire r).tempf - v| ≤ 1 / 1000)
    ∧ (∀ z : ℤ, p.humidityin = WField.num (z : ℚ) → (toImperialWire r).humidityin = z)
    ∧ (∀ z : ℤ, p.humidity = WField.num (z : ℚ) → (toImperialWire r).humidity = z)
    ∧ (∀ v : ℚ, p.uv = WField.num v → (toImperialWire r).uv = v)
    ∧ (∀ v : ℚ, p.windgustmph = WField.num v →
        |(toImperialWire r).windgustmph - v| ≤ 1 / 1000)
    ∧ (∀ v : ℚ, p.baromrelin = WField.num v → (toImperialWire r).baromrelin = v)
    ∧ (∀ v : ℚ, p.baromabsin = WField.num v → (toImperialWire r).baromabsin = v)
    ∧ (∀ v : ℚ, p.solarradiation = WField.num v → (toImperialWire r).solarradiation = v)
    ∧ (∀ v : ℚ, p.dailyrainin = WField.num v → (toImperialWire r).dailyrainin = v)
    ∧ (∀ v : ℚ, p.raintodayin = WField.num v → (toImperialWire r).raintodayin = v)
    ∧ (∀ v : ℚ, p.totalrainin = WField.num v → (toImperialWire r).totalrainin = v)
    ∧ (∀ v : ℚ, p.weeklyrainin = WField.num v → (toImperialWire r).weeklyrainin = v)
    ∧ (∀ v : ℚ, p.monthlyrainin = WField.num v → (toImperialWire r).monthlyrainin = v)
    ∧ (∀ v : ℚ, p.yearlyrainin = WField.num v → (toImperialWire r).yearlyrainin = v)
    ∧ (∀ v : ℚ, p.maxdailygust = WField.num v → (toImperialWire r).maxdailygust = v)
    ∧ (∀ v : ℚ, p.wh65batt = WField.num v → (toImperialWire r).wh65batt = v) := by
  intro rid lid p r h
  obtain ⟨dev, dt, hdev, hdt, hr⟩ := handlePostParse_inv h
  subst hr
  refine ⟨?_, ?_, ?_, ?_, ?_, ?_, ?_, ?_, ?_, ?_, ?_, ?_, ?_, ?_, ?_, ?_, ?_, ?_, ?_, ?_, ?_⟩
  · intro z hz
    rw [hz] at hdev
    simp only [handlePostDeviceId, Rat.den_intCast, Rat.num_intCast,
      if_true, Option.some.injEq] at hdev
    simp only [toImperialWire, mkReading]
    omega
  · intro v hv
    simp only [toImperialWire, mkReading, numsVal, hv, pyFloat,
      Option.getD_some]
    exact roundtrip_mul v
  · intro z hz
    simp only [toImperialWire, mkReading, numsVal, hz, pyInt,
      Rat.den_intCast, Rat.num_intCast, if_true, Option.getD_some]
  · intro v hv
    simp only [toImperialWire, mkReading, numsVal, hv, pyFloat,
      Option.getD_some]
  · intro v hv
    simp only [toImperialWire, mkReading, numsVal, hv, pyFloat,
      Option.getD_some]
    exact roundtrip_temp v
  · intro v hv
    simp only [toImperialWire, mkReading, numsVal, hv, pyFloat,
      Option.getD_some]
    exact roundtrip_temp v
  · intro z hz
    simp only [toImperialWire, mkReading, numsVal, hz, pyInt,
      Rat.den_intCast, Rat.num_intCast, if_true, Option.getD_some]
  · intro z hz
    simp only [toImperialWire, mkReading, numsVal, hz, pyInt,
      Rat.den_intCast, Rat.num_intCast, if_true, Option.getD_some]
  · intro v hv
    simp only [toImperialWire, mkReading, numsVal, hv, pyFloat,
      Option.getD_some]
  · intro v hv
    simp only [toImperialWire, mkReading, numsVal, hv, pyFloat,
      Option.getD_some]
    exact roundtrip_mul v
  · intro v hv
    simp only [toImperialWire, mkReading, numsVal, hv, pyFloat,
      Option.getD_some]
  · intro v hv
    simp only [toImperialWire, mkReading, numsVal, hv, pyFloat,
      Option.getD_some]
  · intro v hv
    simp only [toImperialWire, mkReading, numsVal, hv, pyFloat,
      Option.getD_some]
  · intro v hv
    simp only [toImperialWire, mkReading, numsVal, hv, pyFloat,
      Option.getD_some]
  · intro v hv
    simp only [toImperialWire, mkReading, numsVal, hv, pyFloat,
      Option.getD_some]
  · intro v hv
    simp only [toImperialWire, mkReading, numsVal, hv, pyFloat,
      Option.getD_some]
  · intro v hv
    simp only [toImperialWire, mkReading, numsVal, hv, pyFloat,
      Option.getD_some]
  · intro v hv
    simp only [toImperialWire, mkReading, numsVal, hv, pyFloat,
      Option.getD_some]
  · intro v hv
    simp only [toImperialWire, mkReading, numsVal, hv, pyFloat,
      Option.getD_some]
  · intro v hv
    simp only [toImperialWire, mkReading, numsVal, hv, pyFloat,
      Option.getD_some]
  · intro v hv
    simp only [toImperialWire, mkReading, numsVal, hv, pyFloat,
      Option.getD_some]

/-- A wire report with every numeric parameter present. -/
def scenarioFull : Params :=
  { id := WField.num 7
    windspeedmph := WField.num 5
    winddir := WField.num 180
    rainratein := WField.num 1
    tempinf := WField.num 68
    tempf := WField.num 75
    humidityin := WField.num 50
    humidity := WField.num 60
    uv := WField.num 3
    windgustmph := WField.num 10
    baromrelin := WField.num 29
    baromabsin := WField.num 28
    solarradiation := WField.num 500
    dailyrainin := WField.num 1
    raintodayin := WField.num 1
    totalrainin := WField.num 2
    weeklyrainin := WField.num 3
    monthlyrainin := WField.num 4
    yearlyrainin := WField.num 5
    maxdailygust := WField.num 12
    wh65batt := WField.num 2
    dateutc := none
    model := none
    passkey := none }

lemma numsOk_scenarioFull : numsOk scenarioFull = true := by
  simp [numsOk, scenarioFull, pyFloat, pyInt]

lemma handlePostParse_scenarioFull :
    handlePostParse (some 44) (some 1) scenarioFull =
      some { mkReading 7 "" (numsVal scenarioFull) scenarioFull with
             model := "", passkey := "" } := by
  have h1 : handlePostDeviceId (some 44) (some 1) scenarioFull.id =
      some 7 := by
    simp [handlePostDeviceId, scenarioFull]
  have h2 : handlePostDatetime scenarioFull.dateutc = some "" := by
    simp [handlePostDatetime, scenarioFull]
  have h3 : coerceNums scenarioFull = some (numsVal scenarioFull) := by
    simp [coerceNums, numsOk_scenarioFull]
  unfold handlePostParse
  rw [h1, h3, h2]

/-- Witness for C6: the round trip through decode and the imperial
reconstruction at a fully populated concrete report. -/
theorem c6_roundtrip_witness :
    |(toImperialWire { mkReading 7 "" (numsVal scenarioFull) scenarioFull
        with model := "", passkey := "" }).tempf - 75| ≤ 1 / 1000
    ∧ |(toImperialWire { mkReading 7 "" (numsVal scenarioFull) scenarioFull
        with model := "", passkey := "" }).windspeedmph - 5| ≤ 1 / 1000 := by
  have h := c6_roundtrip (some 44) (some 1) scenarioFull
    { mkReading 7 "" (numsVal scenarioFull) scenarioFull with
      model := "", passkey := "" } handlePostParse_scenarioFull
  exact ⟨h.2.2.2.2.2.1 75 rfl, h.2.1 5 rfl⟩

/-- A wire report whose only parameter is `id=7`. -/
def pWireId7 : Params := { emptyParams with id := WField.num 7 }

/-- C7 counterexample: on the misol ingestion path, a report carrying the
explicit parseable wire parameter `id=7` is still decoded with the path's
own fallback `99` (no configured id): the misol decoder never reads the
wire `id`. -/
theorem c7_misol_ignores_wire_id :
    (misolParseWeatherData none "2024-01-01 12:00:00" pWireId7).map
      Reading.device_id = some 99
    ∧ (99 : ℤ) ≠ 7 := by
  constructor
  · have h1 : misolParseWeatherData none "2024-01-01 12:00:00" pWireId7 =
        some (mkReading (pyOr none 99) "2024-01-01 12:00:00"
          (numsVal pWireId7) pWireId7) := by
      simp [misolParseWeatherData, coerceNums,
        show numsOk pWireId7 = true by simp [numsOk, pWireId7, emptyParams,
          pyFloat, pyInt]]
    rw [h1]
    simp [mkReading, pyOr]
  · decide

/-- C7 amended: the device id resolution differs per ingestion path.  The
Flask `handle_post` path follows (a) the wire `id` when present and integer
parseable, else (b) the configured raspi `device_id`, else the legacy
settings `id`, else the constant 1.  The misol handlers ignore the wire
`id` entirely and use `self.device_id or 99`; the packet-capture
interceptor uses the id resolved at settings load (legacy settings,
overridden by raspi settings, fallback 99) and also ignores the wire `id`. -/
theorem c7_device_id_resolution :
    (∀ (rid lid : Option ℤ) (p : Params) (r : Reading),
        handlePostParse rid lid p = some r →
        (∀ z : ℤ, p.id = WField.num (z : ℚ) → r.device_id = z)
        ∧ (p.id = WField.absent → r.device_id = rid.getD (lid.getD 1)))
    ∧ (∀ (d : Option ℤ) (now : String) (p : Params) (r : Reading),
        misolParseWeatherData d now p = some r → r.device_id = pyOr d 99)
    ∧ (∀ (d : ℤ) (p : Params) (r : Reading),
        interceptorParseWeatherData d p = some r → r.device_id = d)
    ∧ interceptorLoadDeviceId none none = 99 := by
  refine ⟨?_, ?_, ?_, rfl⟩
  · intro rid lid p r h
    obtain ⟨dev, dt, hdev, hdt, hr⟩ := handlePostParse_inv h
    subst hr
    constructor
    · intro z hz
      rw [hz] at hdev
      simp only [handlePostDeviceId, Rat.den_intCast, Rat.num_intCast,
        if_true, Option.some.injEq] at hdev
      simp only [mkReading]
      omega
    · intro hz
      rw [hz] at hdev
      simp only [handlePostDeviceId, Option.some.injEq] at hdev
      simp only [mkReading]
      exact hdev.symm
  · intro d now p r h
    unfold misolParseWeatherData at h
    cases hn : coerceNums p with
    | none => rw [hn] at h; exact Option.noConfusion h
    | some n =>
      rw [hn] at h
      have h2 := Option.some.inj h
      rw [← h2]
      simp [mkReading]
  · intro d p r h
    unfold interceptorParseWeatherData at h
    cases hn : coerceNums p with
    | none => rw [hn] at h; exact Option.noConfusion h
    | some n =>
      rw [hn] at h
      have h2 := Option.some.inj h
      rw [← h2]
      simp [mkReading]

/-- Witness for C7: the Flask path resolves an absent wire id to the
configured raspi id, and the misol path resolves to its configured id. -/
theorem c7_device_id_resolution_witness :
    ({ mkReading 44 "" (numsVal emptyParams) emptyParams with
       model := "", passkey := "" } : Reading).device_id =
      (some (44 : ℤ)).getD ((some (1 : ℤ)).getD 1)
    ∧ (mkReading (pyOr (some 5) 99) "t" (numsVal emptyParams)
        emptyParams).device_id = pyOr (some 5) 99 := by
  constructor
  · have hp : handlePostParse (some 44) (some 1) emptyParams =
        some { mkReading 44 "" (numsVal emptyParams) emptyParams with
               model := "", passkey := "" } := by
      have h1 : handlePostDeviceId (some 44) (some 1) emptyParams.id =
          some 44 := by
        simp [handlePostDeviceId, emptyParams]
      have h2 : handlePostDatetime emptyParams.dateutc = some "" := by
        simp [handlePostDatetime, emptyParams]
      have h3 : coerceNums emptyParams = some (numsVal emptyParams) := by
        simp [coerceNums, numsOk_emptyParams]
      unfold handlePostParse
      rw [h1, h3, h2]
    exact (c7_device_id_resolution.1 (some 44) (some 1) emptyParams _ hp).2
      rfl
  · have hp : misolParseWeatherData (some 5) "t" emptyParams =
        some (mkReading (pyOr (some 5) 99) "t" (numsVal emptyParams)
          emptyParams) := by
      simp [misolParseWeatherData, coerceNums, numsOk_emptyParams]
    exact c7_device_id_resolution.2.1 (some 5) "t" emptyParams _ hp

/-- A wire report whose `dateutc` value cannot parse as
`%Y-%m-%d %H:%M:%S`. -/
def pBadDate : Params := { emptyParams with dateutc := some "not+a+date" }

/-- C10: on the packet-capture path, a present ASCII `dateutc` value that
does not parse as `%Y-%m-%d %H:%M:%S` (per CPython's compiled pattern:
non-zero-padded components and whitespace runs do parse) neither drops the
reading nor raises: the decoder produces a reading whose datetime is the
original string with `+` replaced by spaces, instead of the
seven-hour-shifted local time.  The ASCII hypothesis marks the model's
scope: CPython's `\d` additionally accepts non-ASCII Unicode digits, not
modelled here. -/
theorem c10_unparseable_dateutc_kept :
    ∀ (d : ℤ) (p : Params) (s : String),
      p.dateutc = some s →
      (∀ c ∈ s.data, c.toNat < 128) →
      strptimeYmdHms (replacePlus s) = none →
      numsOk p = true →
      interceptorParseWeatherData d p =
        some (mkReading d (replacePlus s) (numsVal p) p) := by
  intro d p s hs _hascii hbad hok
  unfold interceptorParseWeatherData
  rw [hs]
  simp [hbad, coerceNums, hok]

/-- Witness for C10: a concrete unparseable `dateutc` is kept verbatim
(with `+` turned into spaces) and the reading is produced. -/
theorem c10_unparseable_dateutc_kept_witness :
    (interceptorParseWeatherData 7 pBadDate).map Reading.datetime =
      some "not a date" := by
  have h := c10_unparseable_dateutc_kept 7 pBadDate "not+a+date" rfl
    (by decide) (by decide) (by decide)
  rw [h]
  simp [mkReading]
  decide
